import Mathlib

/-!
# Pointer-constraints wrapper (`c_src/pointer_constraints_wrapper.c`)

A shallow embedding of the C translation unit.  The unit owns one global
variable, `pc`, and talks to the Wayland client library.  The embedding is
state passing: a `State` holds the value of `pc` and the ordered trace of
every library call the unit issues (protocol calls and `printf` / `fprintf`).

What the library does is supplied from outside: the registry proxy returned
by `wl_display_get_registry`, the registry events dispatched while
`wl_display_roundtrip` blocks, and the pointer returned by each
`wl_registry_bind`.
-/

set_option linter.unusedVariables false

namespace PointerConstraints

/-- A C pointer, as an address. The null pointer is address `0`. -/
abbrev Ptr := Nat

/-- The null pointer. -/
def NULL : Ptr := 0

/-- The `struct wl_interface` descriptor of a protocol interface: only the
fields the wrapper reads.  The descriptor `zwp_pointer_constraints_v1_interface`
lives in the generated protocol header, so every function below takes it as a
parameter `iface`. -/
structure wl_interface where
  name : String
  version : Nat
deriving DecidableEq, Repr

/-- Modelled from the spec: the lifetime enumeration of the generated
pointer-constraints protocol header, which is not part of the sources; the
spec names the persistent lifetime, the protocol has the one-shot one too. -/
inductive zwp_pointer_constraints_v1_lifetime where
  | ONESHOT
  | PERSISTENT
deriving DecidableEq, Repr

/-- The address of a listener structure. The unit defines a single one,
`registry_listener`. -/
inductive ListenerRef where
  | registry_listener
deriving DecidableEq, Repr

/-- One call issued by the wrapper into a library, with its arguments. -/
inductive Call where
  | wl_display_get_registry (display : Ptr)
  | wl_registry_add_listener (registry : Ptr) (listener : ListenerRef) (data : Ptr)
  | wl_display_roundtrip (display : Ptr)
  | wl_registry_bind (registry : Ptr) (name : Nat) (interface : wl_interface) (version : Nat)
  | zwp_pointer_constraints_v1_lock_pointer (pc surface pointer region : Ptr)
      (lifetime : zwp_pointer_constraints_v1_lifetime)
  | printf (text : String)
  | fprintf_stderr (text : String)
deriving DecidableEq, Repr

/-- The state of the process as far as the wrapper is concerned: the global
`pc` (line 7) and the calls issued so far, oldest first. -/
structure State where
  pc : Ptr
  trace : List Call
deriving DecidableEq, Repr

/-- The state at program start: `pc = NULL`, nothing called yet. -/
def State.initial : State := { pc := NULL, trace := [] }

/-- The libc `strcmp` on C strings given as their characters before the
terminator: zero exactly on equal strings, otherwise the sign of the first
difference, a missing character counting as the terminator. -/
def strcmp : List Char → List Char → Int
  | [], [] => 0
  | [], _ :: _ => -1
  | _ :: _, [] => 1
  | a :: as, b :: bs => if a = b then strcmp as bs else if a.toNat < b.toNat then -1 else 1

/-- The callback `registry_global` (lines 9-16). `proxy` is the pointer that
`wl_registry_bind` returns when the callback calls it. -/
def registry_global (iface : wl_interface) (data registry : Ptr) (name : Nat)
    (interface : String) (version : Nat) (proxy : Ptr) (s : State) : State :=
  if strcmp interface.toList iface.name.toList = 0 then
    { pc := proxy
      trace := s.trace ++
        [Call.wl_registry_bind registry name iface 1,
         Call.printf "[pointer_constraints] bound zwp_pointer_constraints_v1\n"] }
  else s

/-- The callback `registry_global_remove` (lines 18-22): it does nothing. -/
def registry_global_remove (data registry : Ptr) (name : Nat) (s : State) : State :=
  s

/-- A `struct wl_registry_listener`: the two callbacks. -/
structure wl_registry_listener where
  global : Ptr → Ptr → Nat → String → Nat → Ptr → State → State
  global_remove : Ptr → Ptr → Nat → State → State

/-- The static `registry_listener` (lines 24-27). -/
def registry_listener (iface : wl_interface) : wl_registry_listener :=
  { global := registry_global iface
    global_remove := registry_global_remove }

/-- A global advertised by the compositor: the registry proxy the event is
delivered on, the three protocol arguments of the event, and `proxy`, the
pointer `wl_registry_bind` returns if the callback binds this global. -/
structure Global where
  registry : Ptr
  name : Nat
  interface : String
  version : Nat
  proxy : Ptr
deriving DecidableEq, Repr

/-- A registry event delivered by the compositor. -/
inductive RegistryEvent where
  | global (g : Global)
  | global_remove (registry : Ptr) (name : Nat)
deriving DecidableEq, Repr

/-- The library delivers one event to a listener registered with user data
`data`. -/
def deliver (l : wl_registry_listener) (data : Ptr) (e : RegistryEvent) (s : State) : State :=
  match e with
  | RegistryEvent.global g =>
      l.global data g.registry g.name g.interface g.version g.proxy s
  | RegistryEvent.global_remove registry name =>
      l.global_remove data registry name s

/-- The events of one roundtrip, delivered in order. -/
def dispatch (l : wl_registry_listener) (data : Ptr) (events : List RegistryEvent)
    (s : State) : State :=
  events.foldl (fun st e => deliver l data e st) s

/-- What the library does during one `init_pointer_constraints` call: the
registry proxy `wl_display_get_registry` returns and the events dispatched
during the roundtrip. -/
structure Env where
  registry : Ptr
  events : List RegistryEvent
deriving DecidableEq, Repr

/-- The function `init_pointer_constraints` (lines 29-45). -/
def init_pointer_constraints (iface : wl_interface) (env : Env) (display_ptr : Ptr)
    (s : State) : State :=
  let display := display_ptr
  if display = NULL then
    { s with trace := s.trace ++
        [Call.fprintf_stderr "init_pointer_constraints: display is NULL\n"] }
  else
    let registry := env.registry
    let s1 : State := { s with trace := s.trace ++ [Call.wl_display_get_registry display] }
    let s2 : State := { s1 with trace := s1.trace ++
        [Call.wl_registry_add_listener registry ListenerRef.registry_listener NULL] }
    let s3 : State := { s2 with trace := s2.trace ++ [Call.wl_display_roundtrip display] }
    let s4 : State := dispatch (registry_listener iface) NULL env.events s3
    if s4.pc = NULL then
      { s4 with trace := s4.trace ++
          [Call.fprintf_stderr "Failed to bind zwp_pointer_constraints_v1\n"] }
    else s4

/-- The function `lock_pointer` (lines 47-56). -/
def lock_pointer (surface_ptr pointer_ptr : Ptr) (s : State) : State :=
  if s.pc = NULL then s
  else
    { s with trace := s.trace ++
        [Call.zwp_pointer_constraints_v1_lock_pointer s.pc surface_ptr pointer_ptr NULL
           zwp_pointer_constraints_v1_lifetime.PERSISTENT,
         Call.printf "Pointer locked!\n"] }

/-- A call of one of the two exported functions. -/
inductive Op where
  | init (env : Env) (display_ptr : Ptr)
  | lock (surface_ptr pointer_ptr : Ptr)
deriving DecidableEq, Repr

/-- One exported call applied to the state. -/
def step (iface : wl_interface) (o : Op) (s : State) : State :=
  match o with
  | Op.init env display_ptr => init_pointer_constraints iface env display_ptr s
  | Op.lock surface_ptr pointer_ptr => lock_pointer surface_ptr pointer_ptr s

/-- A sequence of exported calls, oldest first. -/
def run (iface : wl_interface) (ops : List Op) (s : State) : State :=
  ops.foldl (fun st o => step iface o st) s

/-- The value of `pc` before the first call and after each call of a sequence. -/
def pcHistory (iface : wl_interface) : List Op → State → List Ptr
  | [], s => [s.pc]
  | o :: ops, s => s.pc :: pcHistory iface ops (step iface o s)

/-! ## Observations used to state the properties -/

/-- The interface descriptor as generated from the protocol description. -/
def zwp_pointer_constraints_v1_interface : wl_interface :=
  { name := "zwp_pointer_constraints_v1", version := 1 }

/-- Whether a call is `wl_registry_bind`. -/
def Call.isBind : Call → Bool
  | Call.wl_registry_bind _ _ _ _ => true
  | _ => false

/-- Whether a call is one of the three set-up calls of `init_pointer_constraints`. -/
def Call.isSetup : Call → Bool
  | Call.wl_display_get_registry _ => true
  | Call.wl_registry_add_listener _ _ _ => true
  | Call.wl_display_roundtrip _ => true
  | _ => false

/-- Whether a call writes output (`printf` or `fprintf`). -/
def Call.isOutput : Call → Bool
  | Call.printf _ => true
  | Call.fprintf_stderr _ => true
  | _ => false

/-- Whether a call sends a protocol request to the compositor. -/
def Call.isRequest : Call → Bool
  | Call.wl_display_get_registry _ => true
  | Call.wl_display_roundtrip _ => true
  | Call.wl_registry_bind _ _ _ _ => true
  | Call.zwp_pointer_constraints_v1_lock_pointer _ _ _ _ _ => true
  | _ => false

/-- The advertised globals whose interface name is that of `iface`, in
advertisement order. -/
def matching (iface : wl_interface) : List RegistryEvent → List Global
  | [] => []
  | RegistryEvent.global g :: es =>
      if g.interface = iface.name then g :: matching iface es else matching iface es
  | RegistryEvent.global_remove _ _ :: es => matching iface es

/-- The bind request for a global: its registry, its numeric name, the
descriptor `iface` and version `1`. -/
def Global.bindCall (iface : wl_interface) (g : Global) : Call :=
  Call.wl_registry_bind g.registry g.name iface 1

/-- The calls issued for a list of globals that are bound one after the
other: for each, the bind and the success message. -/
def bindCalls (iface : wl_interface) : List Global → List Call
  | [] => []
  | g :: gs =>
      g.bindCall iface ::
        Call.printf "[pointer_constraints] bound zwp_pointer_constraints_v1\n" ::
        bindCalls iface gs

/-- The number of steps of a history at which the value goes from `NULL` to
a non-null pointer. -/
def unboundToBound : List Ptr → Nat
  | a :: b :: rest =>
      (if a = NULL ∧ b ≠ NULL then 1 else 0) + unboundToBound (b :: rest)
  | _ => 0

/-- Every bind performed for the events returns a non-null pointer. -/
def Env.bindsNonNull (iface : wl_interface) (env : Env) : Prop :=
  ∀ g ∈ matching iface env.events, g.proxy ≠ NULL

instance (iface : wl_interface) (env : Env) : Decidable (env.bindsNonNull iface) :=
  inferInstanceAs (Decidable (∀ g ∈ matching iface env.events, g.proxy ≠ NULL))

/-- Every bind performed during a call returns a non-null pointer. -/
def Op.bindsNonNull (iface : wl_interface) : Op → Prop
  | Op.init env _ => env.bindsNonNull iface
  | Op.lock _ _ => True

instance (iface : wl_interface) (o : Op) : Decidable (o.bindsNonNull iface) := by
  cases o <;> unfold Op.bindsNonNull <;> infer_instance

/-! ## Concrete compositors used in the examples -/

/-- A roundtrip in which the compositor advertises the pointer-constraints
interface twice, among other globals. -/
def advertisedTwice : Env :=
  { registry := 100
    events :=
      [RegistryEvent.global ⟨100, 1, "wl_compositor", 4, 6⟩,
       RegistryEvent.global ⟨100, 3, "zwp_pointer_constraints_v1", 1, 7⟩,
       RegistryEvent.global ⟨100, 4, "wl_seat", 7, 8⟩,
       RegistryEvent.global ⟨100, 5, "zwp_pointer_constraints_v1", 1, 9⟩] }

/-- A roundtrip in which the interface is advertised once. -/
def advertisedOnce : Env :=
  { registry := 100
    events :=
      [RegistryEvent.global ⟨100, 1, "wl_compositor", 4, 6⟩,
       RegistryEvent.global ⟨100, 3, "zwp_pointer_constraints_v1", 1, 7⟩] }

/-- A later roundtrip, on a new registry proxy, in which the interface is
advertised again. -/
def advertisedAgain : Env :=
  { registry := 101
    events :=
      [RegistryEvent.global ⟨101, 1, "wl_compositor", 4, 8⟩,
       RegistryEvent.global ⟨101, 3, "zwp_pointer_constraints_v1", 1, 9⟩] }

/-- A roundtrip in which the interface is not advertised; the global `3` is
even removed. -/
def notAdvertised : Env :=
  { registry := 100
    events :=
      [RegistryEvent.global ⟨100, 1, "wl_compositor", 4, 6⟩,
       RegistryEvent.global_remove 100 3,
       RegistryEvent.global ⟨100, 4, "wl_seat", 7, 8⟩] }

/-- A state in which the handle is set: proxy `7` was bound earlier. -/
def boundState : State :=
  { pc := 7
    trace :=
      [Call.wl_registry_bind 100 3 zwp_pointer_constraints_v1_interface 1,
       Call.printf "[pointer_constraints] bound zwp_pointer_constraints_v1\n"] }

/-- A roundtrip in which the interface is advertised and the bind of it
fails: `wl_registry_bind` returns `NULL`. -/
def bindFails : Env :=
  { registry := 101
    events :=
      [RegistryEvent.global ⟨101, 1, "wl_compositor", 4, 8⟩,
       RegistryEvent.global ⟨101, 3, "zwp_pointer_constraints_v1", 1, NULL⟩] }

/-! ## Auxiliary facts -/

theorem strcmp_eq_zero_iff (a b : List Char) : strcmp a b = 0 ↔ a = b := by
  induction a generalizing b with
  | nil => cases b <;> simp [strcmp]
  | cons x xs ih =>
    cases b with
    | nil => simp [strcmp]
    | cons y ys =>
      by_cases h : x = y
      · simp [strcmp, h, ih]
      · by_cases h2 : x.toNat < y.toNat <;> simp [strcmp, h, h2]

theorem strcmp_toList_eq_zero_iff (a b : String) :
    strcmp a.toList b.toList = 0 ↔ a = b := by
  rw [strcmp_eq_zero_iff]
  exact String.ext_iff.symm

theorem registry_global_eq (iface : wl_interface) (data registry : Ptr) (name : Nat)
    (interface : String) (version : Nat) (proxy : Ptr) (s : State) :
    registry_global iface data registry name interface version proxy s =
      if interface = iface.name then
        { pc := proxy
          trace := s.trace ++
            [Call.wl_registry_bind registry name iface 1,
             Call.printf "[pointer_constraints] bound zwp_pointer_constraints_v1\n"] }
      else s := by
  unfold registry_global
  by_cases h : interface = iface.name
  · rw [if_pos h, if_pos ((strcmp_toList_eq_zero_iff _ _).2 h)]
  · rw [if_neg h, if_neg (fun h0 => h ((strcmp_toList_eq_zero_iff _ _).1 h0))]

theorem deliver_global_eq (iface : wl_interface) (data : Ptr) (g : Global) (s : State) :
    deliver (registry_listener iface) data (RegistryEvent.global g) s =
      if g.interface = iface.name then
        { pc := g.proxy
          trace := s.trace ++
            [g.bindCall iface,
             Call.printf "[pointer_constraints] bound zwp_pointer_constraints_v1\n"] }
      else s := by
  simp only [deliver, registry_listener, registry_global_eq, Global.bindCall]

theorem deliver_global_remove_eq (iface : wl_interface) (data registry : Ptr) (name : Nat)
    (s : State) :
    deliver (registry_listener iface) data (RegistryEvent.global_remove registry name) s = s := by
  simp [deliver, registry_listener, registry_global_remove]

theorem dispatch_cons (l : wl_registry_listener) (data : Ptr) (e : RegistryEvent)
    (es : List RegistryEvent) (s : State) :
    dispatch l data (e :: es) s = dispatch l data es (deliver l data e s) := by
  simp [dispatch]

theorem dispatch_trace (iface : wl_interface) (data : Ptr) (events : List RegistryEvent)
    (s : State) :
    (dispatch (registry_listener iface) data events s).trace =
      s.trace ++ bindCalls iface (matching iface events) := by
  induction events generalizing s with
  | nil => simp [dispatch, matching, bindCalls]
  | cons e es ih =>
    rw [dispatch_cons, ih]
    cases e with
    | global g =>
      rw [deliver_global_eq]
      by_cases h : g.interface = iface.name <;> simp [matching, bindCalls, h]
    | global_remove registry name =>
      rw [deliver_global_remove_eq]
      simp [matching]

theorem dispatch_pc (iface : wl_interface) (data : Ptr) (events : List RegistryEvent)
    (s : State) :
    (dispatch (registry_listener iface) data events s).pc =
      (((matching iface events).getLast?).map Global.proxy).getD s.pc := by
  induction events generalizing s with
  | nil => simp [dispatch, matching]
  | cons e es ih =>
    rw [dispatch_cons, ih]
    cases e with
    | global g =>
      rw [deliver_global_eq]
      by_cases h : g.interface = iface.name
      · have hm : matching iface (RegistryEvent.global g :: es) = g :: matching iface es := by
          simp [matching, h]
        rw [hm, List.getLast?_cons, if_pos h]
        cases hl : (matching iface es).getLast? <;> simp
      · have hm : matching iface (RegistryEvent.global g :: es) = matching iface es := by
          simp [matching, h]
        rw [hm, if_neg h]
    | global_remove registry name =>
      rw [deliver_global_remove_eq]
      simp [matching]

theorem dispatch_eq (iface : wl_interface) (data : Ptr) (events : List RegistryEvent)
    (s : State) :
    dispatch (registry_listener iface) data events s =
      { pc := (((matching iface events).getLast?).map Global.proxy).getD s.pc
        trace := s.trace ++ bindCalls iface (matching iface events) } := by
  have h1 := dispatch_pc iface data events s
  have h2 := dispatch_trace iface data events s
  cases hds : dispatch (registry_listener iface) data events s with
  | mk p t =>
    rw [hds] at h1 h2
    simp only at h1 h2
    rw [h1, h2]

theorem bindCalls_filter_isBind (iface : wl_interface) (gs : List Global) :
    (bindCalls iface gs).filter Call.isBind = gs.map (Global.bindCall iface) := by
  induction gs with
  | nil => simp [bindCalls]
  | cons g gs ih => simp [bindCalls, Global.bindCall, Call.isBind, ih]

theorem bindCalls_filter_isSetup (iface : wl_interface) (gs : List Global) :
    (bindCalls iface gs).filter Call.isSetup = [] := by
  induction gs with
  | nil => simp [bindCalls]
  | cons g gs ih => simp [bindCalls, Global.bindCall, Call.isSetup, ih]

theorem bindCalls_count_stderr (iface : wl_interface) (gs : List Global) (text : String) :
    (bindCalls iface gs).count (Call.fprintf_stderr text) = 0 := by
  induction gs with
  | nil => simp [bindCalls]
  | cons g gs ih => simp [bindCalls, Global.bindCall, List.count_cons, ih]

theorem mem_matching (iface : wl_interface) (events : List RegistryEvent) (g : Global) :
    g ∈ matching iface events ↔
      RegistryEvent.global g ∈ events ∧ g.interface = iface.name := by
  induction events with
  | nil => simp [matching]
  | cons e es ih =>
    cases e with
    | global g2 =>
      by_cases h : g2.interface = iface.name
      · simp only [matching, if_pos h, List.mem_cons, ih, RegistryEvent.global.injEq]
        constructor
        · rintro (rfl | ⟨h1, h2⟩)
          · exact ⟨Or.inl rfl, h⟩
          · exact ⟨Or.inr h1, h2⟩
        · rintro ⟨rfl | h1, h2⟩
          · exact Or.inl rfl
          · exact Or.inr ⟨h1, h2⟩
      · simp only [matching, if_neg h, List.mem_cons, ih, RegistryEvent.global.injEq]
        constructor
        · rintro ⟨h1, h2⟩
          exact ⟨Or.inr h1, h2⟩
        · rintro ⟨rfl | h1, h2⟩
          · exact absurd h2 h
          · exact ⟨h1, h2⟩
    | global_remove registry name =>
      simp [matching, ih]

theorem matching_eq_nil_iff (iface : wl_interface) (events : List RegistryEvent) :
    matching iface events = [] ↔
      ∀ g, RegistryEvent.global g ∈ events → g.interface ≠ iface.name := by
  rw [List.eq_nil_iff_forall_not_mem]
  constructor
  · intro h g hg hi
    exact h g ((mem_matching iface events g).2 ⟨hg, hi⟩)
  · intro h g hg
    have := (mem_matching iface events g).1 hg
    exact h g this.1 this.2

theorem init_null (iface : wl_interface) (env : Env) (s : State) :
    init_pointer_constraints iface env NULL s =
      { pc := s.pc
        trace := s.trace ++
          [Call.fprintf_stderr "init_pointer_constraints: display is NULL\n"] } := by
  simp [init_pointer_constraints]

/-- The state right after the roundtrip of `init_pointer_constraints` returns. -/
theorem init_nonnull (iface : wl_interface) (env : Env) (d : Ptr) (s : State)
    (hd : d ≠ NULL) :
    init_pointer_constraints iface env d s =
      { pc := (((matching iface env.events).getLast?).map Global.proxy).getD s.pc
        trace := s.trace ++
          [Call.wl_display_get_registry d,
           Call.wl_registry_add_listener env.registry ListenerRef.registry_listener NULL,
           Call.wl_display_roundtrip d] ++ bindCalls iface (matching iface env.events) ++
          (if (((matching iface env.events).getLast?).map Global.proxy).getD s.pc
              = NULL then
            [Call.fprintf_stderr "Failed to bind zwp_pointer_constraints_v1\n"]
           else []) } := by
  simp only [init_pointer_constraints, if_neg hd, dispatch_eq]
  split <;> simp

theorem init_pc_of_nonnull (iface : wl_interface) (env : Env) (d : Ptr) (s : State)
    (hd : d ≠ NULL) :
    (init_pointer_constraints iface env d s).pc =
      (((matching iface env.events).getLast?).map Global.proxy).getD s.pc := by
  rw [init_nonnull iface env d s hd]

theorem init_pc_unchanged_or_bound (iface : wl_interface) (env : Env) (d : Ptr) (s : State) :
    (init_pointer_constraints iface env d s).pc = s.pc ∨
      ∃ g ∈ matching iface env.events, (init_pointer_constraints iface env d s).pc = g.proxy := by
  by_cases hd : d = NULL
  · left
    rw [hd, init_null]
  · rw [init_pc_of_nonnull iface env d s hd]
    cases hl : (matching iface env.events).getLast? with
    | none => left; rfl
    | some g => right; exact ⟨g, List.mem_of_getLast?_eq_some hl, rfl⟩

theorem init_pc_ne_null (iface : wl_interface) (env : Env) (d : Ptr) (s : State)
    (hs : s.pc ≠ NULL) (hnn : env.bindsNonNull iface) :
    (init_pointer_constraints iface env d s).pc ≠ NULL := by
  rcases init_pc_unchanged_or_bound iface env d s with h | ⟨g, hg, h⟩
  · rw [h]; exact hs
  · rw [h]; exact hnn g hg

theorem lock_pointer_pc (surface_ptr pointer_ptr : Ptr) (s : State) :
    (lock_pointer surface_ptr pointer_ptr s).pc = s.pc := by
  unfold lock_pointer
  split <;> rfl

theorem step_pc_ne_null (iface : wl_interface) (o : Op) (s : State)
    (hs : s.pc ≠ NULL) (ho : o.bindsNonNull iface) : (step iface o s).pc ≠ NULL := by
  cases o with
  | init env d => exact init_pc_ne_null iface env d s hs ho
  | lock a b => simp only [step, lock_pointer_pc]; exact hs

theorem run_cons (iface : wl_interface) (o : Op) (ops : List Op) (s : State) :
    run iface (o :: ops) s = run iface ops (step iface o s) := by
  simp [run]

theorem run_concat (iface : wl_interface) (ops : List Op) (o : Op) (s : State) :
    run iface (ops ++ [o]) s = step iface o (run iface ops s) := by
  simp [run, List.foldl_append]

theorem run_pc_ne_null (iface : wl_interface) (ops : List Op) (s : State)
    (hs : s.pc ≠ NULL) (hops : ∀ o ∈ ops, o.bindsNonNull iface) :
    (run iface ops s).pc ≠ NULL := by
  induction ops generalizing s with
  | nil => simpa [run] using hs
  | cons o ops ih =>
    rw [run_cons]
    exact ih _ (step_pc_ne_null iface o s hs (hops o (List.mem_cons_self o ops)))
      (fun o2 ho2 => hops o2 (List.mem_cons_of_mem o ho2))

theorem pcHistory_eq_cons (iface : wl_interface) (ops : List Op) (s : State) :
    ∃ t, pcHistory iface ops s = s.pc :: t := by
  cases ops with
  | nil => exact ⟨[], rfl⟩
  | cons o ops => exact ⟨pcHistory iface ops (step iface o s), rfl⟩

theorem unboundToBound_pcHistory_cons (iface : wl_interface) (o : Op) (ops : List Op)
    (s : State) :
    unboundToBound (pcHistory iface (o :: ops) s) =
      (if s.pc = NULL ∧ (step iface o s).pc ≠ NULL then 1 else 0) +
        unboundToBound (pcHistory iface ops (step iface o s)) := by
  obtain ⟨t, ht⟩ := pcHistory_eq_cons iface ops (step iface o s)
  simp only [pcHistory, ht, unboundToBound]

theorem unboundToBound_of_bound (iface : wl_interface) (ops : List Op) (s : State)
    (hs : s.pc ≠ NULL) (hops : ∀ o ∈ ops, o.bindsNonNull iface) :
    unboundToBound (pcHistory iface ops s) = 0 := by
  induction ops generalizing s with
  | nil => simp [pcHistory, unboundToBound]
  | cons o ops ih =>
    rw [unboundToBound_pcHistory_cons,
      ih _ (step_pc_ne_null iface o s hs (hops o (List.mem_cons_self o ops)))
        (fun o2 ho2 => hops o2 (List.mem_cons_of_mem o ho2))]
    simp [hs]

theorem unboundToBound_le_one (iface : wl_interface) (ops : List Op) (s : State)
    (hops : ∀ o ∈ ops, o.bindsNonNull iface) :
    unboundToBound (pcHistory iface ops s) ≤ 1 := by
  induction ops generalizing s with
  | nil => simp [pcHistory, unboundToBound]
  | cons o ops ih =>
    have hrest : ∀ o2 ∈ ops, o2.bindsNonNull iface :=
      fun o2 ho2 => hops o2 (List.mem_cons_of_mem o ho2)
    rw [unboundToBound_pcHistory_cons]
    by_cases h2 : (step iface o s).pc = NULL
    · have := ih (step iface o s) hrest
      simp [h2]
      exact this
    · rw [unboundToBound_of_bound iface ops _ h2 hrest]
      split <;> simp

/-! ## The registry binder: matching globals -/

/-- C1, refuted as stated: started with the handle unset, on a non-null
display, with a compositor that advertises the interface twice (globals `3`
and `5`, whose binds return `7` and `9`), `init_pointer_constraints` performs
two binds, not one, and the handle stored is `9`, the proxy of the second
match, not `7`, the proxy of the first. -/
theorem C1_counterexample :
    State.initial.pc = NULL ∧
    (matching zwp_pointer_constraints_v1_interface advertisedTwice.events).head? =
      some ⟨100, 3, "zwp_pointer_constraints_v1", 1, 7⟩ ∧
    (init_pointer_constraints zwp_pointer_constraints_v1_interface advertisedTwice 50
        State.initial).trace.filter Call.isBind =
      [Call.wl_registry_bind 100 3 zwp_pointer_constraints_v1_interface 1,
       Call.wl_registry_bind 100 5 zwp_pointer_constraints_v1_interface 1] ∧
    (init_pointer_constraints zwp_pointer_constraints_v1_interface advertisedTwice 50
        State.initial).pc = 9 ∧
    ¬ (((init_pointer_constraints zwp_pointer_constraints_v1_interface advertisedTwice 50
        State.initial).trace.filter Call.isBind).length = 1 ∧
      (init_pointer_constraints zwp_pointer_constraints_v1_interface advertisedTwice 50
        State.initial).pc = 7) := by
  decide

/-- C1, as amended: on a non-null display, started with the handle unset,
`init_pointer_constraints` performs one `wl_registry_bind` for every
advertised global that has the target interface name, in advertisement order
(so exactly one only when exactly one global matches), and when at least one
global matches the handle stored afterwards is the pointer returned by the
bind of the last matching global. -/
theorem C1_init_binds_every_match_and_keeps_last (iface : wl_interface) (env : Env)
    (display_ptr : Ptr) (s : State) (last : Global)
    (hd : display_ptr ≠ NULL) (hs : s.pc = NULL)
    (hlast : (matching iface env.events).getLast? = some last) :
    (init_pointer_constraints iface env display_ptr s).trace.filter Call.isBind =
        s.trace.filter Call.isBind ++ (matching iface env.events).map (Global.bindCall iface) ∧
      ((init_pointer_constraints iface env display_ptr s).trace.filter Call.isBind).length =
        (s.trace.filter Call.isBind).length + (matching iface env.events).length ∧
      (init_pointer_constraints iface env display_ptr s).pc = last.proxy := by
  have htr : (init_pointer_constraints iface env display_ptr s).trace.filter Call.isBind =
      s.trace.filter Call.isBind ++ (matching iface env.events).map (Global.bindCall iface) := by
    rw [init_nonnull iface env display_ptr s hd]
    simp only [List.filter_append, bindCalls_filter_isBind]
    split <;> simp [Call.isBind]
  refine ⟨htr, ?_, ?_⟩
  · rw [htr]; simp
  · rw [init_nonnull iface env display_ptr s hd, hlast]
    rfl

/-- C1, as amended, at the compositor that advertises the interface twice. -/
theorem C1_init_binds_every_match_and_keeps_last_witness :
    (50 : Ptr) ≠ NULL ∧ State.initial.pc = NULL ∧
    (matching zwp_pointer_constraints_v1_interface advertisedTwice.events).getLast? =
      some ⟨100, 5, "zwp_pointer_constraints_v1", 1, 9⟩ ∧
    ((init_pointer_constraints zwp_pointer_constraints_v1_interface advertisedTwice 50
        State.initial).trace.filter Call.isBind =
        State.initial.trace.filter Call.isBind ++
          (matching zwp_pointer_constraints_v1_interface advertisedTwice.events).map
            (Global.bindCall zwp_pointer_constraints_v1_interface) ∧
      ((init_pointer_constraints zwp_pointer_constraints_v1_interface advertisedTwice 50
        State.initial).trace.filter Call.isBind).length =
        (State.initial.trace.filter Call.isBind).length +
          (matching zwp_pointer_constraints_v1_interface advertisedTwice.events).length ∧
      (init_pointer_constraints zwp_pointer_constraints_v1_interface advertisedTwice 50
        State.initial).pc = (⟨100, 5, "zwp_pointer_constraints_v1", 1, 9⟩ : Global).proxy) :=
  ⟨by decide, by decide, by decide,
    C1_init_binds_every_match_and_keeps_last zwp_pointer_constraints_v1_interface
      advertisedTwice 50 State.initial ⟨100, 5, "zwp_pointer_constraints_v1", 1, 9⟩
      (by decide) (by decide) (by decide)⟩

/-! ## The lock invoker -/

/-- C2: with the handle set, `lock_pointer` appends to the calls issued so
far exactly one `zwp_pointer_constraints_v1_lock_pointer` request, on the
stored handle, with the given surface and pointer, a null region and the
persistent lifetime, followed only by its `printf`; it issues no other
protocol request and leaves the handle as it was. -/
theorem C2_lock_pointer_when_bound (surface_ptr pointer_ptr : Ptr) (s : State)
    (hs : s.pc ≠ NULL) :
    lock_pointer surface_ptr pointer_ptr s =
        { pc := s.pc
          trace := s.trace ++
            [Call.zwp_pointer_constraints_v1_lock_pointer s.pc surface_ptr pointer_ptr NULL
               zwp_pointer_constraints_v1_lifetime.PERSISTENT,
             Call.printf "Pointer locked!\n"] } ∧
      (lock_pointer surface_ptr pointer_ptr s).trace.filter Call.isRequest =
        s.trace.filter Call.isRequest ++
          [Call.zwp_pointer_constraints_v1_lock_pointer s.pc surface_ptr pointer_ptr NULL
             zwp_pointer_constraints_v1_lifetime.PERSISTENT] := by
  constructor
  · simp [lock_pointer, hs]
  · simp [lock_pointer, hs, List.filter_append, Call.isRequest]

/-- C2 at the state where proxy `7` is bound, surface `20`, pointer `30`. -/
theorem C2_lock_pointer_when_bound_witness :
    boundState.pc ≠ NULL ∧
    (lock_pointer 20 30 boundState =
        { pc := boundState.pc
          trace := boundState.trace ++
            [Call.zwp_pointer_constraints_v1_lock_pointer boundState.pc 20 30 NULL
               zwp_pointer_constraints_v1_lifetime.PERSISTENT,
             Call.printf "Pointer locked!\n"] } ∧
      (lock_pointer 20 30 boundState).trace.filter Call.isRequest =
        boundState.trace.filter Call.isRequest ++
          [Call.zwp_pointer_constraints_v1_lock_pointer boundState.pc 20 30 NULL
             zwp_pointer_constraints_v1_lifetime.PERSISTENT]) :=
  ⟨by decide, C2_lock_pointer_when_bound 20 30 boundState (by decide)⟩

/-- C3: with the handle unset, `lock_pointer` returns the state it was given,
whatever the two pointers (null ones included): no call is issued, nothing is
written, and the handle stays unset. -/
theorem C3_lock_pointer_when_unbound (surface_ptr pointer_ptr : Ptr) (s : State)
    (hs : s.pc = NULL) :
    lock_pointer surface_ptr pointer_ptr s = s ∧
      (lock_pointer surface_ptr pointer_ptr s).trace = s.trace ∧
      (lock_pointer surface_ptr pointer_ptr s).pc = NULL := by
  have h : lock_pointer surface_ptr pointer_ptr s = s := by simp [lock_pointer, hs]
  rw [h]
  exact ⟨rfl, rfl, hs⟩

/-- C3 at program start with two null pointers. -/
theorem C3_lock_pointer_when_unbound_witness :
    State.initial.pc = NULL ∧
    (lock_pointer NULL NULL State.initial = State.initial ∧
      (lock_pointer NULL NULL State.initial).trace = State.initial.trace ∧
      (lock_pointer NULL NULL State.initial).pc = NULL) :=
  ⟨by decide, C3_lock_pointer_when_unbound NULL NULL State.initial (by decide)⟩

/-! ## The error paths of `init_pointer_constraints` -/

/-- C4: with a null display, `init_pointer_constraints` only appends the
`display is NULL` line on stderr: the set-up calls and the binds in the trace
are those already there, and the handle is untouched, so a handle that was
unset (as at program start) is still unset. -/
theorem C4_init_null_display (iface : wl_interface) (env : Env) (s : State) :
    init_pointer_constraints iface env NULL s =
        { pc := s.pc
          trace := s.trace ++
            [Call.fprintf_stderr "init_pointer_constraints: display is NULL\n"] } ∧
      (init_pointer_constraints iface env NULL s).trace.filter Call.isSetup =
        s.trace.filter Call.isSetup ∧
      (init_pointer_constraints iface env NULL s).trace.filter Call.isBind =
        s.trace.filter Call.isBind ∧
      (init_pointer_constraints iface env NULL s).pc = s.pc ∧
      (init_pointer_constraints iface env NULL State.initial).pc = NULL := by
  rw [init_null iface env s, init_null iface env State.initial]
  simp [List.filter_append, Call.isSetup, Call.isBind, State.initial]

/-- C5: on a non-null display, started with the handle unset, when no
advertised global has the target interface name, `init_pointer_constraints`
issues the three set-up calls and then the `Failed to bind` line on stderr,
once, as the last call: no bind, and the handle is still unset. -/
theorem C5_init_without_match (iface : wl_interface) (env : Env) (display_ptr : Ptr)
    (s : State) (hd : display_ptr ≠ NULL) (hs : s.pc = NULL)
    (hno : ∀ g, RegistryEvent.global g ∈ env.events → g.interface ≠ iface.name) :
    init_pointer_constraints iface env display_ptr s =
        { pc := NULL
          trace := s.trace ++
            [Call.wl_display_get_registry display_ptr,
             Call.wl_registry_add_listener env.registry ListenerRef.registry_listener NULL,
             Call.wl_display_roundtrip display_ptr,
             Call.fprintf_stderr "Failed to bind zwp_pointer_constraints_v1\n"] } ∧
      (init_pointer_constraints iface env display_ptr s).trace.filter Call.isBind =
        s.trace.filter Call.isBind ∧
      (init_pointer_constraints iface env display_ptr s).trace.count
          (Call.fprintf_stderr "Failed to bind zwp_pointer_constraints_v1\n") =
        s.trace.count (Call.fprintf_stderr "Failed to bind zwp_pointer_constraints_v1\n") + 1 := by
  have hm : matching iface env.events = [] := (matching_eq_nil_iff iface env.events).2 hno
  have h : init_pointer_constraints iface env display_ptr s =
        { pc := NULL
          trace := s.trace ++
            [Call.wl_display_get_registry display_ptr,
             Call.wl_registry_add_listener env.registry ListenerRef.registry_listener NULL,
             Call.wl_display_roundtrip display_ptr,
             Call.fprintf_stderr "Failed to bind zwp_pointer_constraints_v1\n"] } := by
    rw [init_nonnull iface env display_ptr s hd, hm]
    simp [hs, bindCalls]
  rw [h]
  refine ⟨rfl, ?_, ?_⟩
  · simp [List.filter_append, Call.isBind]
  · simp [List.count_append, List.count_cons]

/-- C5 at program start with the compositor that does not advertise the
interface. -/
theorem C5_init_without_match_witness :
    (50 : Ptr) ≠ NULL ∧ State.initial.pc = NULL ∧
    (∀ g, RegistryEvent.global g ∈ notAdvertised.events →
      g.interface ≠ zwp_pointer_constraints_v1_interface.name) ∧
    (init_pointer_constraints zwp_pointer_constraints_v1_interface notAdvertised 50
        State.initial =
        { pc := NULL
          trace := State.initial.trace ++
            [Call.wl_display_get_registry 50,
             Call.wl_registry_add_listener notAdvertised.registry
               ListenerRef.registry_listener NULL,
             Call.wl_display_roundtrip 50,
             Call.fprintf_stderr "Failed to bind zwp_pointer_constraints_v1\n"] } ∧
      (init_pointer_constraints zwp_pointer_constraints_v1_interface notAdvertised 50
        State.initial).trace.filter Call.isBind = State.initial.trace.filter Call.isBind ∧
      (init_pointer_constraints zwp_pointer_constraints_v1_interface notAdvertised 50
        State.initial).trace.count
          (Call.fprintf_stderr "Failed to bind zwp_pointer_constraints_v1\n") =
        State.initial.trace.count
          (Call.fprintf_stderr "Failed to bind zwp_pointer_constraints_v1\n") + 1) :=
  ⟨by decide, by decide,
    (matching_eq_nil_iff zwp_pointer_constraints_v1_interface notAdvertised.events).1
      (by decide),
    C5_init_without_match zwp_pointer_constraints_v1_interface notAdvertised 50 State.initial
      (by decide) (by decide)
      ((matching_eq_nil_iff zwp_pointer_constraints_v1_interface notAdvertised.events).1
        (by decide))⟩

/-! ## The handle over a sequence of calls -/

/-- C6, refuted as stated: after a first `init_pointer_constraints` has bound
proxy `7` and a `lock_pointer` has used it, a second
`init_pointer_constraints`, with a compositor that advertises the interface
again, binds again and replaces the stored handle by `9`: two binds, and the
handle written twice. -/
theorem C6_counterexample :
    (run zwp_pointer_constraints_v1_interface
        [Op.init advertisedOnce 50, Op.lock 20 30] State.initial).pc = 7 ∧
    (run zwp_pointer_constraints_v1_interface
        [Op.init advertisedOnce 50, Op.lock 20 30, Op.init advertisedAgain 50]
        State.initial).pc = 9 ∧
    (run zwp_pointer_constraints_v1_interface
        [Op.init advertisedOnce 50, Op.lock 20 30, Op.init advertisedAgain 50]
        State.initial).trace.filter Call.isBind =
      [Call.wl_registry_bind 100 3 zwp_pointer_constraints_v1_interface 1,
       Call.wl_registry_bind 101 3 zwp_pointer_constraints_v1_interface 1] ∧
    pcHistory zwp_pointer_constraints_v1_interface
        [Op.init advertisedOnce 50, Op.lock 20 30, Op.init advertisedAgain 50]
        State.initial = [NULL, 7, 7, 9] := by
  decide

/-- C6, as amended: over every sequence of `init_pointer_constraints` and
`lock_pointer` calls in which each bind returns a non-null pointer, the
handle goes from unset to set at most once; it is not written only once,
though: a later `init_pointer_constraints` on a non-null display whose
compositor advertises the interface binds again, once per matching global,
and stores the pointer returned for the last matching global, whereas
`lock_pointer`, a call with a null display and a call with no matching global
leave the stored handle as it is. -/
theorem C6_handle_bound_at_most_once_but_rebound (iface : wl_interface) (ops : List Op)
    (s : State) (env : Env) (display_ptr : Ptr) (last : Global)
    (hops : ∀ o ∈ ops, o.bindsNonNull iface)
    (hd : display_ptr ≠ NULL)
    (hlast : (matching iface env.events).getLast? = some last) :
    unboundToBound (pcHistory iface ops s) ≤ 1 ∧
      (run iface (ops ++ [Op.init env display_ptr]) s).pc = last.proxy ∧
      (run iface (ops ++ [Op.init env display_ptr]) s).trace.filter Call.isBind =
        (run iface ops s).trace.filter Call.isBind ++
          (matching iface env.events).map (Global.bindCall iface) ∧
      (∀ surface_ptr pointer_ptr,
        (run iface (ops ++ [Op.lock surface_ptr pointer_ptr]) s).pc = (run iface ops s).pc) ∧
      (∀ env2, (run iface (ops ++ [Op.init env2 NULL]) s).pc = (run iface ops s).pc) ∧
      (∀ env2 d2, matching iface env2.events = [] →
        (run iface (ops ++ [Op.init env2 d2]) s).pc = (run iface ops s).pc) := by
  refine ⟨unboundToBound_le_one iface ops s hops, ?_, ?_, ?_, ?_, ?_⟩
  · rw [run_concat]
    simp only [step]
    rw [init_pc_of_nonnull iface env display_ptr _ hd, hlast]
    rfl
  · rw [run_concat]
    simp only [step]
    rw [init_nonnull iface env display_ptr _ hd]
    simp only [List.filter_append, bindCalls_filter_isBind]
    split <;> simp [Call.isBind]
  · intro a b
    rw [run_concat]
    simp only [step, lock_pointer_pc]
  · intro env2
    rw [run_concat]
    simp only [step, init_null]
  · intro env2 d2 hm
    rw [run_concat]
    simp only [step]
    rcases init_pc_unchanged_or_bound iface env2 d2 (run iface ops s) with h | ⟨g, hg, _⟩
    · exact h
    · rw [hm] at hg
      cases hg

/-- C6, as amended, at the sequence of the counterexample. -/
theorem C6_handle_bound_at_most_once_but_rebound_witness :
    (∀ o ∈ [Op.init advertisedOnce 50, Op.lock 20 30],
      o.bindsNonNull zwp_pointer_constraints_v1_interface) ∧
    (50 : Ptr) ≠ NULL ∧
    (matching zwp_pointer_constraints_v1_interface advertisedAgain.events).getLast? =
      some ⟨101, 3, "zwp_pointer_constraints_v1", 1, 9⟩ ∧
    unboundToBound (pcHistory zwp_pointer_constraints_v1_interface
      [Op.init advertisedOnce 50, Op.lock 20 30] State.initial) ≤ 1 ∧
    (run zwp_pointer_constraints_v1_interface
      ([Op.init advertisedOnce 50, Op.lock 20 30] ++ [Op.init advertisedAgain 50])
      State.initial).pc = (⟨101, 3, "zwp_pointer_constraints_v1", 1, 9⟩ : Global).proxy :=
  ⟨by decide, by decide, by decide,
    (C6_handle_bound_at_most_once_but_rebound zwp_pointer_constraints_v1_interface
      [Op.init advertisedOnce 50, Op.lock 20 30] State.initial advertisedAgain 50
      ⟨101, 3, "zwp_pointer_constraints_v1", 1, 9⟩ (by decide) (by decide) (by decide)).1,
    (C6_handle_bound_at_most_once_but_rebound zwp_pointer_constraints_v1_interface
      [Op.init advertisedOnce 50, Op.lock 20 30] State.initial advertisedAgain 50
      ⟨101, 3, "zwp_pointer_constraints_v1", 1, 9⟩ (by decide) (by decide) (by decide)).2.1⟩

/-- C7, refuted as stated: the state in which a first
`init_pointer_constraints` has bound proxy `7` is reachable from program
start and has the handle set; a further `init_pointer_constraints` on a
non-null display, with the interface advertised and `wl_registry_bind`
returning `NULL`, stores that return value unchecked (lines 12-13), so the
handle is unset again, and the call reports the failure. -/
theorem C7_counterexample :
    (run zwp_pointer_constraints_v1_interface [Op.init advertisedOnce 50] State.initial).pc
      = 7 ∧
    (run zwp_pointer_constraints_v1_interface [Op.init advertisedOnce 50] State.initial).pc
      ≠ NULL ∧
    (init_pointer_constraints zwp_pointer_constraints_v1_interface bindFails 50
      (run zwp_pointer_constraints_v1_interface [Op.init advertisedOnce 50]
        State.initial)).pc = NULL ∧
    (init_pointer_constraints zwp_pointer_constraints_v1_interface bindFails 50
      (run zwp_pointer_constraints_v1_interface [Op.init advertisedOnce 50]
        State.initial)).trace =
      [Call.wl_display_get_registry 50,
       Call.wl_registry_add_listener 100 ListenerRef.registry_listener NULL,
       Call.wl_display_roundtrip 50,
       Call.wl_registry_bind 100 3 zwp_pointer_constraints_v1_interface 1,
       Call.printf "[pointer_constraints] bound zwp_pointer_constraints_v1\n",
       Call.wl_display_get_registry 50,
       Call.wl_registry_add_listener 101 ListenerRef.registry_listener NULL,
       Call.wl_display_roundtrip 50,
       Call.wl_registry_bind 101 3 zwp_pointer_constraints_v1_interface 1,
       Call.printf "[pointer_constraints] bound zwp_pointer_constraints_v1\n",
       Call.fprintf_stderr "Failed to bind zwp_pointer_constraints_v1\n"] ∧
    ¬ ((init_pointer_constraints zwp_pointer_constraints_v1_interface bindFails 50
      (run zwp_pointer_constraints_v1_interface [Op.init advertisedOnce 50]
        State.initial)).pc ≠ NULL) := by
  decide

/-- C7, as amended: from a state with the handle set, `lock_pointer`, the
`global_remove` callback (whatever global is removed, the bound one included)
and `init_pointer_constraints` with a null display leave the handle exactly
unchanged; `init_pointer_constraints` with any display and any advertised
globals leaves it either unchanged or equal to the pointer returned by a
`wl_registry_bind` of that call, so the handle stays set provided every
`wl_registry_bind` performed returns a non-null pointer; under that same
proviso it stays set after any sequence of the two exported calls. -/
theorem C7_handle_never_reset (iface : wl_interface) (env : Env)
    (display_ptr surface_ptr pointer_ptr data registry : Ptr) (name : Nat)
    (ops : List Op) (s : State)
    (hs : s.pc ≠ NULL) :
    (lock_pointer surface_ptr pointer_ptr s).pc = s.pc ∧
      registry_global_remove data registry name s = s ∧
      deliver (registry_listener iface) data (RegistryEvent.global_remove registry name) s = s ∧
      (init_pointer_constraints iface env NULL s).pc = s.pc ∧
      ((init_pointer_constraints iface env display_ptr s).pc = s.pc ∨
        ∃ g ∈ matching iface env.events,
          (init_pointer_constraints iface env display_ptr s).pc = g.proxy) ∧
      (env.bindsNonNull iface →
        (init_pointer_constraints iface env display_ptr s).pc ≠ NULL) ∧
      ((∀ o ∈ ops, o.bindsNonNull iface) → (run iface ops s).pc ≠ NULL) := by
  refine ⟨lock_pointer_pc surface_ptr pointer_ptr s, rfl,
    deliver_global_remove_eq iface data registry name s, ?_,
    init_pc_unchanged_or_bound iface env display_ptr s,
    fun hnn => init_pc_ne_null iface env display_ptr s hs hnn,
    fun hops => run_pc_ne_null iface ops s hs hops⟩
  rw [init_null]

/-- C7, as amended, at the state where global `3` of registry `100` is bound
as proxy `7`: a later roundtrip that advertises the interface again, the
removal of global `3`, and a sequence that locks and then enumerates a
compositor which removes global `3`. -/
theorem C7_handle_never_reset_witness :
    boundState.pc ≠ NULL ∧
    advertisedAgain.bindsNonNull zwp_pointer_constraints_v1_interface ∧
    (∀ o ∈ [Op.lock 20 30, Op.init notAdvertised 50],
      o.bindsNonNull zwp_pointer_constraints_v1_interface) ∧
    (lock_pointer 20 30 boundState).pc = boundState.pc ∧
    registry_global_remove NULL 100 3 boundState = boundState ∧
    (init_pointer_constraints zwp_pointer_constraints_v1_interface advertisedAgain 50
      boundState).pc ≠ NULL ∧
    (run zwp_pointer_constraints_v1_interface [Op.lock 20 30, Op.init notAdvertised 50]
      boundState).pc ≠ NULL :=
  ⟨by decide, by decide, by decide,
    (C7_handle_never_reset zwp_pointer_constraints_v1_interface advertisedAgain 50 20 30
      NULL 100 3 [Op.lock 20 30, Op.init notAdvertised 50] boundState (by decide)).1,
    (C7_handle_never_reset zwp_pointer_constraints_v1_interface advertisedAgain 50 20 30
      NULL 100 3 [Op.lock 20 30, Op.init notAdvertised 50] boundState (by decide)).2.1,
    (C7_handle_never_reset zwp_pointer_constraints_v1_interface advertisedAgain 50 20 30
      NULL 100 3 [Op.lock 20 30, Op.init notAdvertised 50] boundState
      (by decide)).2.2.2.2.2.1 (by decide),
    (C7_handle_never_reset zwp_pointer_constraints_v1_interface advertisedAgain 50 20 30
      NULL 100 3 [Op.lock 20 30, Op.init notAdvertised 50] boundState
      (by decide)).2.2.2.2.2.2 (by decide)⟩

/-! ## The call sequence of `init_pointer_constraints` -/

/-- C8: on a non-null display, `init_pointer_constraints` appends to the
calls issued so far `wl_display_get_registry` on the display, then
`wl_registry_add_listener` on the registry just obtained with the fixed
listener and null user data, then one `wl_display_roundtrip` on the display;
what follows is only what the callbacks issue during the roundtrip (binds and
their messages, no set-up call) and, last, the failure line exactly when the
handle is unset: each set-up call is issued once, there is no retry. -/
theorem C8_init_call_sequence (iface : wl_interface) (env : Env) (display_ptr : Ptr)
    (s : State) (hd : display_ptr ≠ NULL) :
    (init_pointer_constraints iface env display_ptr s).trace =
        s.trace ++
          [Call.wl_display_get_registry display_ptr,
           Call.wl_registry_add_listener env.registry ListenerRef.registry_listener NULL,
           Call.wl_display_roundtrip display_ptr] ++
          bindCalls iface (matching iface env.events) ++
          (if (init_pointer_constraints iface env display_ptr s).pc = NULL then
            [Call.fprintf_stderr "Failed to bind zwp_pointer_constraints_v1\n"]
           else []) ∧
      (init_pointer_constraints iface env display_ptr s).trace.filter Call.isSetup =
        s.trace.filter Call.isSetup ++
          [Call.wl_display_get_registry display_ptr,
           Call.wl_registry_add_listener env.registry ListenerRef.registry_listener NULL,
           Call.wl_display_roundtrip display_ptr] ∧
      (bindCalls iface (matching iface env.events)).filter Call.isSetup = [] := by
  refine ⟨?_, ?_, bindCalls_filter_isSetup iface _⟩
  · rw [init_nonnull iface env display_ptr s hd]
  · rw [init_nonnull iface env display_ptr s hd]
    simp only [List.filter_append, bindCalls_filter_isSetup]
    split <;> simp [Call.isSetup]

/-- C8 at program start with the compositor that advertises the interface
twice. -/
theorem C8_init_call_sequence_witness :
    (50 : Ptr) ≠ NULL ∧
    (init_pointer_constraints zwp_pointer_constraints_v1_interface advertisedTwice 50
      State.initial).trace.filter Call.isSetup =
      State.initial.trace.filter Call.isSetup ++
        [Call.wl_display_get_registry 50,
         Call.wl_registry_add_listener advertisedTwice.registry
           ListenerRef.registry_listener NULL,
         Call.wl_display_roundtrip 50] :=
  ⟨by decide,
    (C8_init_call_sequence zwp_pointer_constraints_v1_interface advertisedTwice 50
      State.initial (by decide)).2.1⟩

/-! ## The callback `registry_global` -/

/-- C9: for every global event, `registry_global` binds exactly when the
interface string equals the name of the pointer-constraints descriptor; it
then issues one bind with the numeric name of the event, the descriptor and
version `1`, whatever version is advertised, prints its message and stores
the returned pointer; otherwise it returns the state unchanged. Equality is
that of whole strings and of case: the upper-case name, a proper initial part
of the name and the name followed by one more character do not bind. -/
theorem C9_registry_global_binds_on_exact_name (iface : wl_interface)
    (data registry : Ptr) (name : Nat) (interface : String) (version : Nat) (proxy : Ptr)
    (s : State) :
    registry_global iface data registry name interface version proxy s =
        (if interface = iface.name then
          { pc := proxy
            trace := s.trace ++
              [Call.wl_registry_bind registry name iface 1,
               Call.printf "[pointer_constraints] bound zwp_pointer_constraints_v1\n"] }
         else s) ∧
      (registry_global iface data registry name interface version proxy s).trace.filter
          Call.isBind =
        s.trace.filter Call.isBind ++
          (if interface = iface.name then [Call.wl_registry_bind registry name iface 1]
           else []) ∧
      registry_global zwp_pointer_constraints_v1_interface data registry name
          "ZWP_POINTER_CONSTRAINTS_V1" version proxy s = s ∧
      registry_global zwp_pointer_constraints_v1_interface data registry name
          "zwp_pointer_constraints" version proxy s = s ∧
      registry_global zwp_pointer_constraints_v1_interface data registry name
          "zwp_pointer_constraints_v1x" version proxy s = s := by
  refine ⟨registry_global_eq _ _ _ _ _ _ _ _, ?_, ?_, ?_, ?_⟩
  · rw [registry_global_eq]
    by_cases h : interface = iface.name
    · simp [h, List.filter_append, Call.isBind]
    · simp [h]
  · rw [registry_global_eq, if_neg (by decide)]
  · rw [registry_global_eq, if_neg (by decide)]
  · rw [registry_global_eq, if_neg (by decide)]

/-! ## The failure diagnostic -/

/-- C10: on a non-null display, from any state and for any advertised
globals, `init_pointer_constraints` adds the `Failed to bind` line once if
the handle is unset when the roundtrip has returned and not at all if it is
set, and the handle it leaves is the one the roundtrip left; so when the
handle was already set and no advertised global matches, the old handle is
kept and the call adds the three set-up calls and nothing else. -/
theorem C10_failure_line_iff_unset_after_roundtrip (iface : wl_interface) (env : Env)
    (display_ptr : Ptr) (s : State) (hd : display_ptr ≠ NULL) :
    (init_pointer_constraints iface env display_ptr s).trace.count
          (Call.fprintf_stderr "Failed to bind zwp_pointer_constraints_v1\n") =
        s.trace.count (Call.fprintf_stderr "Failed to bind zwp_pointer_constraints_v1\n") +
          (if (dispatch (registry_listener iface) NULL env.events
                { pc := s.pc
                  trace := s.trace ++
                    [Call.wl_display_get_registry display_ptr,
                     Call.wl_registry_add_listener env.registry
                       ListenerRef.registry_listener NULL,
                     Call.wl_display_roundtrip display_ptr] }).pc = NULL
           then 1 else 0) ∧
      (init_pointer_constraints iface env display_ptr s).pc =
        (dispatch (registry_listener iface) NULL env.events
          { pc := s.pc
            trace := s.trace ++
              [Call.wl_display_get_registry display_ptr,
               Call.wl_registry_add_listener env.registry ListenerRef.registry_listener NULL,
               Call.wl_display_roundtrip display_ptr] }).pc ∧
      (s.pc ≠ NULL →
        (∀ g, RegistryEvent.global g ∈ env.events → g.interface ≠ iface.name) →
        init_pointer_constraints iface env display_ptr s =
          { pc := s.pc
            trace := s.trace ++
              [Call.wl_display_get_registry display_ptr,
               Call.wl_registry_add_listener env.registry ListenerRef.registry_listener NULL,
               Call.wl_display_roundtrip display_ptr] }) := by
  refine ⟨?_, ?_, ?_⟩
  · rw [init_nonnull iface env display_ptr s hd, dispatch_pc]
    simp only [List.count_append, bindCalls_count_stderr]
    split <;> simp [List.count_cons]
  · rw [init_nonnull iface env display_ptr s hd, dispatch_pc]
  · intro hs hno
    have hm : matching iface env.events = [] := (matching_eq_nil_iff iface env.events).2 hno
    rw [init_nonnull iface env display_ptr s hd, hm]
    simp [hs, bindCalls]

/-- C10 at the state where proxy `7` is bound, with the compositor that does
not advertise the interface: no failure line, the handle is still `7`. -/
theorem C10_failure_line_iff_unset_after_roundtrip_witness :
    (50 : Ptr) ≠ NULL ∧ boundState.pc ≠ NULL ∧
    (∀ g, RegistryEvent.global g ∈ notAdvertised.events →
      g.interface ≠ zwp_pointer_constraints_v1_interface.name) ∧
    init_pointer_constraints zwp_pointer_constraints_v1_interface notAdvertised 50
        boundState =
      { pc := boundState.pc
        trace := boundState.trace ++
          [Call.wl_display_get_registry 50,
           Call.wl_registry_add_listener notAdvertised.registry
             ListenerRef.registry_listener NULL,
           Call.wl_display_roundtrip 50] } :=
  ⟨by decide, by decide,
    (matching_eq_nil_iff zwp_pointer_constraints_v1_interface notAdvertised.events).1
      (by decide),
    (C10_failure_line_iff_unset_after_roundtrip zwp_pointer_constraints_v1_interface
      notAdvertised 50 boundState (by decide)).2.2 (by decide)
      ((matching_eq_nil_iff zwp_pointer_constraints_v1_interface notAdvertised.events).1
        (by decide))⟩

end PointerConstraints
